import Mathlib

/-!
Shallow embedding of `GLSLPostProcessor.cpp` (filamat shader post-processing
pipeline).  Pure repository logic (branching on the configuration, the
binding-index map construction, the optimization pass lists, the remap of MSL
resource bindings, the driver `process`) is translated directly; external
collaborators (glslang parse/link, GlslangToSpv, spirv-tools optimizer,
spirv-cross compilers, the minifier) are modelled as components of a `World`
record whose fields stand for the results those libraries would return.
-/

namespace Filamat

/-- MaterialBuilder::TargetLanguage: GLSL means "target dialect equals the
source dialect" (no SPIR-V semantics), SPIRV means the SPIR-V-capable path. -/
inductive TargetLanguage
  | GLSL
  | SPIRV
  deriving DecidableEq

/-- MaterialBuilder::TargetApi. -/
inductive TargetApi
  | OPENGL
  | VULKAN
  | METAL
  deriving DecidableEq

/-- filament::backend::ShaderModel. -/
inductive ShaderModel
  | MOBILE
  | DESKTOP
  deriving DecidableEq

/-- filament::backend::ShaderStage. -/
inductive ShaderStage
  | VERTEX
  | FRAGMENT
  deriving DecidableEq

/-- MaterialBuilder::Optimization levels. -/
inductive Optimization
  | NONE
  | PREPROCESSOR
  | SIZE
  | PERFORMANCE
  deriving DecidableEq

/-- filament::MaterialDomain. -/
inductive MaterialDomain
  | SURFACE
  | POST_PROCESS
  deriving DecidableEq

/-- A SPIR-V module: ordered sequence of 32-bit words (modelled as Nat). -/
abbrev SpirvBlob := List Nat

/-- Stage activity flags of a SamplerInterfaceBlock (sib.getStageFlags()). -/
structure StageFlags where
  vertex : Bool
  fragment : Bool
  deriving DecidableEq

/-- hasShaderType(stageFlags, shaderType). -/
def hasShaderType (flags : StageFlags) (stage : ShaderStage) : Bool :=
  match stage with
  | ShaderStage.VERTEX => flags.vertex
  | ShaderStage.FRAGMENT => flags.fragment

/-- A SamplerInterfaceBlock: its stage flags and the uniformName of each
entry of getSamplerInfoList(), in declaration order. -/
structure SamplerInterfaceBlock where
  stageFlags : StageFlags
  samplerNames : List String
  deriving DecidableEq

/-- One binding point of the SamplerBindingPoints enumeration, as seen by the
loop in getBindingIndexMap: whether this blockIndex is PER_MATERIAL_INSTANCE,
and the result of SibGenerator::getSib for it (null = none). -/
structure SamplerBlockEntry where
  isPerMaterialInstance : Bool
  sib : Option SamplerInterfaceBlock
  deriving DecidableEq

/-- GLSLPostProcessor::Config.  `samplerBlocks` is the fixed enumeration of
SamplerBindingPoints that the SURFACE branch of getBindingIndexMap walks
(SibGenerator data, external to this file), `materialSib` is
config.materialInfo->sib. -/
structure Config where
  targetLanguage : TargetLanguage
  targetApi : TargetApi
  shaderModel : ShaderModel
  shaderType : ShaderStage
  domain : MaterialDomain
  hasFramebufferFetch : Bool
  samplerBlocks : List SamplerBlockEntry
  materialSib : SamplerInterfaceBlock
  deriving DecidableEq

/-- glslVersionFromShaderModel. -/
def glslVersionFromShaderModel (model : ShaderModel) : Nat :=
  match model with
  | ShaderModel.MOBILE => 300
  | ShaderModel.DESKTOP => 410

/-! ## Binding Index Map (msl namespace) -/

/-- msl::BindingIndexMap = std::unordered_map from uniform name to uint16
index, modelled as an association list with distinct keys (list order records
insertion order; lookups are by key only). -/
abbrev BindingIndexMap := List (String × Nat)

/-- Key membership in the map (map.find(name) succeeds). -/
def keyMem (m : BindingIndexMap) (name : String) : Bool :=
  m.any (fun p => p.1 == name)

/-- Lookup (std::unordered_map::at semantics produce the value if present). -/
def lookupMap : BindingIndexMap → String → Option Nat
  | [], _ => none
  | (k, v) :: m, name => if k == name then some v else lookupMap m name

/-- One step `map[info.uniformName] = map.size()`.  Since C++17 the right
operand is sequenced first, so the size is read before the insertion: a new
name receives the current number of entries as its index; an existing name is
overwritten with the current size. -/
def mapInsertSized (m : BindingIndexMap) (name : String) : BindingIndexMap :=
  if keyMem m name then
    m.map (fun p => if p.1 == name then (p.1, m.length) else p)
  else m ++ [(name, m.length)]

/-- msl::generateBindingIndexMap: if the sib is active for the config's stage
register each sampler name in declaration order. -/
def generateBindingIndexMap (cfg : Config) (sib : SamplerInterfaceBlock)
    (map : BindingIndexMap) : BindingIndexMap :=
  if hasShaderType sib.stageFlags cfg.shaderType then
    sib.samplerNames.foldl mapInsertSized map
  else map

/-- Body of the SURFACE loop of msl::getBindingIndexMap: skip the
PER_MATERIAL_INSTANCE binding point, skip null sibs, otherwise register. -/
def surfaceFoldStep (cfg : Config) (m : BindingIndexMap)
    (e : SamplerBlockEntry) : BindingIndexMap :=
  if e.isPerMaterialInstance then m
  else
    match e.sib with
    | some sib => generateBindingIndexMap cfg sib m
    | none => m

/-- msl::getBindingIndexMap: for SURFACE materials walk the global
SamplerBindingPoints enumeration (the switch case falls through), then always
register the material's own sib last. -/
def getBindingIndexMap (cfg : Config) : BindingIndexMap :=
  let map : BindingIndexMap := []
  let map :=
    match cfg.domain with
    | MaterialDomain.SURFACE => cfg.samplerBlocks.foldl (surfaceFoldStep cfg) map
    | MaterialDomain.POST_PROCESS => map
  generateBindingIndexMap cfg cfg.materialSib map

/-- Names contributed by one sib, in registration order (empty if the sib is
not active for the config's stage). -/
def sibActiveNames (cfg : Config) (sib : SamplerInterfaceBlock) : List String :=
  if hasShaderType sib.stageFlags cfg.shaderType then sib.samplerNames else []

/-- Names contributed by one enumeration entry. -/
def entryNames (cfg : Config) (e : SamplerBlockEntry) : List String :=
  if e.isPerMaterialInstance then []
  else
    match e.sib with
    | some sib => sibActiveNames cfg sib
    | none => []

/-- Names contributed by the SURFACE enumeration, in order. -/
def blocksNames (cfg : Config) : List SamplerBlockEntry → List String
  | [] => []
  | e :: es => entryNames cfg e ++ blocksNames cfg es

/-- The full sequence of sampler resource names registered by
getBindingIndexMap, in registration order. -/
def registeredNames (cfg : Config) : List String :=
  (match cfg.domain with
   | MaterialDomain.SURFACE => blocksNames cfg cfg.samplerBlocks
   | MaterialDomain.POST_PROCESS => []) ++ sibActiveNames cfg cfg.materialSib

/-! ## MSL resource-binding remap (spirvToToMsl) -/

/-- One shader resource of the compiled module (spirv_cross::Resource),
reduced to the data updateResourceBinding reads: its DescriptorSet
decoration, its Binding decoration, and its name. -/
structure Resource where
  set : Nat
  binding : Nat
  name : String
  deriving DecidableEq

/-- spirv_cross::MSLResourceBinding (stage omitted: it is the fixed execution
model of the compiler). -/
structure MSLResourceBinding where
  desc_set : Nat
  binding : Nat
  msl_texture : Nat
  msl_sampler : Nat
  msl_buffer : Nat
  deriving DecidableEq

/-- resources = mslCompiler.get_shader_resources(), reduced to the two lists
the remap walks. -/
structure ShaderResources where
  sampled_images : List Resource
  uniform_buffers : List Resource
  deriving DecidableEq

/-- updateResourceBinding with a map: map->at(name) throws when the name is
absent (modelled as .error); otherwise texture, sampler and buffer slots all
receive the mapped index. -/
def updateSampledBinding (map : BindingIndexMap) (r : Resource) :
    Except String MSLResourceBinding :=
  match lookupMap map r.name with
  | some idx => Except.ok ⟨r.set, r.binding, idx, idx, idx⟩
  | none => Except.error ("unordered_map::at: key not found: " ++ r.name)

/-- updateResourceBinding without a map: the original binding is used for all
three slots (identity remap). -/
def updateUniformBinding (r : Resource) : MSLResourceBinding :=
  ⟨r.set, r.binding, r.binding, r.binding, r.binding⟩

/-- The `for resource in resources.sampled_images` loop: each resource is
looked up; the first absent name aborts the whole remap. -/
def remapSampled (map : BindingIndexMap) :
    List Resource → Except String (List MSLResourceBinding)
  | [] => Except.ok []
  | r :: rs =>
    match updateSampledBinding map r with
    | Except.error e => Except.error e
    | Except.ok b =>
      match remapSampled map rs with
      | Except.error e => Except.error e
      | Except.ok bs => Except.ok (b :: bs)

/-- Both remap loops of spirvToToMsl: sampled images through the binding
index map, then uniform buffers with the identity remap. -/
def remapBindings (map : BindingIndexMap) (res : ShaderResources) :
    Except String (List MSLResourceBinding) :=
  match remapSampled map res.sampled_images with
  | Except.error e => Except.error e
  | Except.ok bs => Except.ok (bs ++ res.uniform_buffers.map updateUniformBinding)

/-- The expected successful remap of one sampled-image resource. -/
def mslSampledBinding (map : BindingIndexMap) (r : Resource) : MSLResourceBinding :=
  let idx := (lookupMap map r.name).getD 0
  ⟨r.set, r.binding, idx, idx, idx⟩

/-! ## Optimization pass lists -/

/-- The spirv-tools passes registered by this file.  Arguments record the
explicit pass parameters used by the source (scalar-replacement limit, the
default being 100, and fully-unroll for loop unrolling). -/
inductive Pass
  | WrapOpKill
  | DeadBranchElim
  | MergeReturn
  | InlineExhaustive
  | AggressiveDCE
  | PrivateToLocal
  | LocalSingleBlockLoadStoreElim
  | LocalSingleStoreElim
  | ScalarReplacement (replLimit : Nat)
  | LocalAccessChainConvert
  | LocalMultiStoreElim
  | CCP
  | RedundancyElimination
  | CombineAccessChains
  | Simplification
  | VectorDCE
  | DeadInsertElim
  | IfConversion
  | CopyPropagateArrays
  | ReduceLoadSize
  | BlockMerge
  | EliminateDeadFunctions
  | LoopUnroll (fullyUnroll : Bool)
  | CFGCleanup
  | ConvertRelaxedToHalf
  | EliminateDeadMembers
  deriving DecidableEq

/-- GLSLPostProcessor::registerPerformancePasses.  MergeReturn is skipped
exactly when the shader model is DESKTOP and the target API is OpenGL (AMD
OpenGL driver defect on MacOS). -/
def registerPerformancePasses (cfg : Config) : List Pass :=
  [Pass.WrapOpKill, Pass.DeadBranchElim] ++
  (if cfg.shaderModel ≠ ShaderModel.DESKTOP ∨ cfg.targetApi ≠ TargetApi.OPENGL then
    [Pass.MergeReturn]
  else []) ++
  [Pass.InlineExhaustive,
   Pass.AggressiveDCE,
   Pass.PrivateToLocal,
   Pass.LocalSingleBlockLoadStoreElim,
   Pass.LocalSingleStoreElim,
   Pass.AggressiveDCE,
   Pass.ScalarReplacement 100,
   Pass.LocalAccessChainConvert,
   Pass.LocalSingleBlockLoadStoreElim,
   Pass.LocalSingleStoreElim,
   Pass.AggressiveDCE,
   Pass.LocalMultiStoreElim,
   Pass.AggressiveDCE,
   Pass.CCP,
   Pass.AggressiveDCE,
   Pass.RedundancyElimination,
   Pass.CombineAccessChains,
   Pass.Simplification,
   Pass.VectorDCE,
   Pass.DeadInsertElim,
   Pass.DeadBranchElim,
   Pass.Simplification,
   Pass.IfConversion,
   Pass.CopyPropagateArrays,
   Pass.ReduceLoadSize,
   Pass.AggressiveDCE,
   Pass.BlockMerge,
   Pass.RedundancyElimination,
   Pass.DeadBranchElim,
   Pass.BlockMerge,
   Pass.Simplification]

/-- GLSLPostProcessor::registerSizePasses.  MergeReturn is skipped whenever
the shader model is DESKTOP (regardless of target API); the
EliminateDeadMembers pass is commented out in the source because it breaks
UBO layout, hence it is absent here. -/
def registerSizePasses (cfg : Config) : List Pass :=
  [Pass.WrapOpKill, Pass.DeadBranchElim] ++
  (if cfg.shaderModel ≠ ShaderModel.DESKTOP then [Pass.MergeReturn] else []) ++
  [Pass.InlineExhaustive,
   Pass.EliminateDeadFunctions,
   Pass.PrivateToLocal,
   Pass.ScalarReplacement 0,
   Pass.LocalMultiStoreElim,
   Pass.CCP,
   Pass.LoopUnroll true,
   Pass.DeadBranchElim,
   Pass.Simplification,
   Pass.ScalarReplacement 0,
   Pass.LocalSingleStoreElim,
   Pass.IfConversion,
   Pass.Simplification,
   Pass.AggressiveDCE,
   Pass.DeadBranchElim,
   Pass.BlockMerge,
   Pass.LocalAccessChainConvert,
   Pass.LocalSingleBlockLoadStoreElim,
   Pass.AggressiveDCE,
   Pass.CopyPropagateArrays,
   Pass.VectorDCE,
   Pass.DeadInsertElim,
   Pass.LocalSingleStoreElim,
   Pass.BlockMerge,
   Pass.LocalMultiStoreElim,
   Pass.RedundancyElimination,
   Pass.Simplification,
   Pass.AggressiveDCE,
   Pass.CFGCleanup]

/-- GLSLPostProcessor::createOptimizer: the ordered pass list registered on
the optimizer for a given optimization level and config.  For PERFORMANCE on
Metal the relaxed-to-half conversion and a simplification round are appended
after the shared performance sequence. -/
def createOptimizer (optimization : Optimization) (cfg : Config) : List Pass :=
  if optimization = Optimization.SIZE then
    registerSizePasses cfg
  else if optimization = Optimization.PERFORMANCE then
    registerPerformancePasses cfg ++
    (if cfg.targetApi = TargetApi.METAL then
      [Pass.ConvertRelaxedToHalf, Pass.Simplification,
       Pass.RedundancyElimination, Pass.AggressiveDCE]
    else [])
  else []

/-! ## Pipeline driver -/

/-- Results of the external libraries invoked by one `process` call.  Each
field stands for the value the corresponding blocking call would return for
this request: glslang parse/link outcomes and info logs, the SPIR-V blobs
GlslangToSpv would lower, the behavior of the spirv-tools optimizer, the
dead-code remapper, the spirv-cross compilers and the minifier. -/
structure World where
  parseOk : Bool
  linkOk : Bool
  shaderInfoLog : String
  lowerToIR : SpirvBlob
  preprocessOk : Bool
  preprocessed : String
  reparseOk : Bool
  relinkOk : Bool
  spirvShaderInfoLog : String
  lowerPreprocessedIR : SpirvBlob
  optimizerRun : List Pass → SpirvBlob → Option SpirvBlob
  remapDCE : SpirvBlob → SpirvBlob
  shaderResources : SpirvBlob → ShaderResources
  mslCompile : SpirvBlob → List MSLResourceBinding → String
  glslCompile : SpirvBlob → String
  removeWhitespace : String → String
  renameStructFields : String → String

/-- The three optional output slots of one `process` call.  `some c` models a
non-null output pointer whose string/blob currently holds `c`; `none` models
a null pointer (output not requested).  Writes through a pointer therefore
use `Option.map`. -/
structure Outputs where
  glsl : Option String
  spirv : Option SpirvBlob
  msl : Option String
  deriving DecidableEq

/-- Observable outcome of `process`: the returned bool, the final contents of
the three output slots, and the diagnostic lines written to the log, in
order. -/
structure ProcResult where
  ok : Bool
  outputs : Outputs
  log : List String
  deriving DecidableEq

/-- GLSLPostProcessor constructor state: the optimization level and the two
flag bits (PRINT_SHADERS, GENERATE_DEBUG_INFO). -/
structure PostProcessor where
  optimization : Optimization
  printShaders : Bool
  generateDebugInfo : Bool
  deriving DecidableEq

/-- GLSLPostProcessor::spirvToToMsl: build the binding index map from the
config, remap every sampled image through it (a missing name raises the
fatal lookup error), remap uniform buffers by identity, then compile to MSL
and strip whitespace. -/
def spirvToToMsl (w : World) (cfg : Config) (spirv : SpirvBlob) :
    Except String String :=
  match remapBindings (getBindingIndexMap cfg) (w.shaderResources spirv) with
  | Except.error e => Except.error e
  | Except.ok bindings =>
    Except.ok (w.removeWhitespace (w.mslCompile spirv bindings))

/-- GLSLPostProcessor::optimizeSpirv: run the registered pass sequence; on
failure log and return early with the module unchanged, otherwise apply the
spirvbin_t DCE_ALL remap to the optimized module. -/
def optimizeSpirv (w : World) (passes : List Pass) (spirv : SpirvBlob) :
    SpirvBlob × List String :=
  match w.optimizerRun passes spirv with
  | none => (spirv, ["SPIR-V optimizer pass failed"])
  | some optimized => (w.remapDCE optimized, [])

/-- GLSLPostProcessor::fullOptimization: lower to SPIR-V, run the optimizer
built by createOptimizer, then populate the requested slots (SPIR-V blob,
MSL cross-translation, GLSL back-translation) from the resulting module. -/
def fullOptimization (w : World) (pp : PostProcessor) (cfg : Config)
    (st : Outputs) : Except String (Outputs × List String) :=
  let spirv0 := w.lowerToIR
  let run := optimizeSpirv w (createOptimizer pp.optimization cfg) spirv0
  let spirv1 := run.1
  let st1 := { st with spirv := st.spirv.map (fun _ => spirv1) }
  let mslStep : Except String Outputs :=
    match st1.msl with
    | some _ =>
      match spirvToToMsl w cfg spirv1 with
      | Except.error e => Except.error e
      | Except.ok msl => Except.ok { st1 with msl := some msl }
    | none => Except.ok st1
  match mslStep with
  | Except.error e => Except.error e
  | Except.ok st2 =>
    Except.ok ({ st2 with glsl := st2.glsl.map (fun _ => w.glslCompile spirv1) }, run.2)

/-- GLSLPostProcessor::preprocessOptimization: run the glslang preprocessor
(its failure is only logged; the output text, possibly empty or truncated,
is still used); when a SPIR-V slot is requested re-parse and re-link the
preprocessed text, logging on failure and lowering on success; then the MSL
slot (if requested) is produced from whatever the SPIR-V slot holds, and the
GLSL slot receives the preprocessed text. -/
def preprocessOptimization (w : World) (_pp : PostProcessor) (cfg : Config)
    (st : Outputs) : Except String (Outputs × List String) :=
  let glsl := w.preprocessed
  let logs1 := if w.preprocessOk then [] else [w.shaderInfoLog]
  let step2 : Outputs × List String :=
    match st.spirv with
    | some _ =>
      if w.reparseOk && w.relinkOk then
        ({ st with spirv := st.spirv.map (fun _ => w.lowerPreprocessedIR) },
         ([] : List String))
      else (st, [w.spirvShaderInfoLog])
    | none => (st, [])
  let st1 := step2.1
  let mslStep : Except String Outputs :=
    match st1.msl with
    | some _ =>
      match spirvToToMsl w cfg (st1.spirv.getD []) with
      | Except.error e => Except.error e
      | Except.ok msl => Except.ok { st1 with msl := some msl }
    | none => Except.ok st1
  match mslStep with
  | Except.error e => Except.error e
  | Except.ok st2 =>
    Except.ok ({ st2 with glsl := st2.glsl.map (fun _ => glsl) }, logs1 ++ step2.2)

/-- GLSLPostProcessor::process.  The fast path returns the input unchanged
when the target language is GLSL (optionally echoing it to the log).
Otherwise glslang parse and link run first; a failure of either logs the
shader info log and returns false with no slot written.  The optimization
level then selects the branch; finally any requested GLSL output is
whitespace-minified, struct fields are renamed unless the level is NONE, and
the text is optionally echoed to the log.  A `.error` result models an
uncaught fatal exception from the MSL binding remap. -/
def process (w : World) (pp : PostProcessor) (cfg : Config) (st : Outputs)
    (inputShader : String) : Except String ProcResult :=
  if cfg.targetLanguage = TargetLanguage.GLSL then
    let st1 := { st with glsl := st.glsl.map (fun _ => inputShader) }
    Except.ok ⟨true, st1, if pp.printShaders then [st1.glsl.getD ""] else []⟩
  else
    if w.parseOk then
      if w.linkOk then
        let branch : Except String (Outputs × List String) :=
          match pp.optimization with
          | Optimization.NONE =>
            match st.spirv with
            | some _ =>
              let blob := w.lowerToIR
              let st1 := { st with spirv := some blob }
              match st1.msl with
              | some _ =>
                match spirvToToMsl w cfg blob with
                | Except.error e => Except.error e
                | Except.ok msl => Except.ok ({ st1 with msl := some msl }, [])
              | none => Except.ok (st1, [])
            | none =>
              Except.ok (st, ["GLSL post-processor invoked with optimization level NONE"])
          | Optimization.PREPROCESSOR => preprocessOptimization w pp cfg st
          | Optimization.SIZE => fullOptimization w pp cfg st
          | Optimization.PERFORMANCE => fullOptimization w pp cfg st
        match branch with
        | Except.error e => Except.error e
        | Except.ok (st2, logs) =>
          match st2.glsl with
          | some g =>
            let g1 := w.removeWhitespace g
            let g2 :=
              if pp.optimization ≠ Optimization.NONE then w.renameStructFields g1
              else g1
            Except.ok ⟨true, { st2 with glsl := some g2 },
              logs ++ (if pp.printShaders then [g2] else [])⟩
          | none => Except.ok ⟨true, st2, logs⟩
      else Except.ok ⟨false, st, [w.shaderInfoLog]⟩
    else Except.ok ⟨false, st, [w.shaderInfoLog]⟩

/-! ## Helper lemmas: density of the binding index map -/

/-- Registration of a list of names, in order, into an existing map. -/
def registerAll (m : BindingIndexMap) (names : List String) : BindingIndexMap :=
  names.foldl mapInsertSized m

/-- The dense association of consecutive indices starting at `k`. -/
def idxFrom : Nat → List String → List (String × Nat)
  | _, [] => []
  | k, n :: ns => (n, k) :: idxFrom (k + 1) ns

theorem registerAll_nil (m : BindingIndexMap) : registerAll m [] = m := rfl

theorem registerAll_cons (m : BindingIndexMap) (n : String) (ns : List String) :
    registerAll m (n :: ns) = registerAll (mapInsertSized m n) ns := rfl

theorem registerAll_append (m : BindingIndexMap) (l1 l2 : List String) :
    registerAll m (l1 ++ l2) = registerAll (registerAll m l1) l2 :=
  List.foldl_append mapInsertSized m l1 l2

theorem keyMem_append (m1 m2 : BindingIndexMap) (name : String) :
    keyMem (m1 ++ m2) name = (keyMem m1 name || keyMem m2 name) := by
  simp [keyMem, List.any_append]

theorem mapInsertSized_fresh (m : BindingIndexMap) (name : String)
    (h : keyMem m name = false) :
    mapInsertSized m name = m ++ [(name, m.length)] := by
  simp [mapInsertSized, h]

theorem registerAll_fresh (names : List String) :
    ∀ m : BindingIndexMap, names.Nodup →
      (∀ n ∈ names, keyMem m n = false) →
      registerAll m names = m ++ idxFrom m.length names := by
  induction names with
  | nil => intro m _ _; simp [registerAll_nil, idxFrom]
  | cons n ns ih =>
    intro m hnd hfresh
    have hn : keyMem m n = false := hfresh n (List.mem_cons_self n ns)
    have hfresh' : ∀ x ∈ ns, keyMem (m ++ [(n, m.length)]) x = false := by
      intro x hx
      have h1 : keyMem m x = false := hfresh x (List.mem_cons_of_mem n hx)
      have h2 : n ≠ x := by
        intro he
        exact (List.nodup_cons.mp hnd).1 (he ▸ hx)
      rw [keyMem_append, h1]
      simp [keyMem, h2]
    have hnd' : ns.Nodup := (List.nodup_cons.mp hnd).2
    calc registerAll m (n :: ns)
        = registerAll (m ++ [(n, m.length)]) ns := by
          rw [registerAll_cons, mapInsertSized_fresh m n hn]
      _ = (m ++ [(n, m.length)]) ++ idxFrom (m ++ [(n, m.length)]).length ns :=
          ih (m ++ [(n, m.length)]) hnd' hfresh'
      _ = m ++ idxFrom m.length (n :: ns) := by
          simp [idxFrom, List.append_assoc, List.length_append]

theorem idxFrom_fst (ns : List String) : ∀ k, (idxFrom k ns).map Prod.fst = ns := by
  induction ns with
  | nil => intro k; rfl
  | cons n ns ih => intro k; simp [idxFrom, ih]

theorem idxFrom_snd (ns : List String) :
    ∀ k, (idxFrom k ns).map Prod.snd = (List.range ns.length).map (· + k) := by
  induction ns with
  | nil => intro k; rfl
  | cons n ns ih =>
    intro k
    simp only [idxFrom, List.map_cons, ih (k + 1), List.length_cons,
      List.range_succ_eq_map, List.map_map]
    refine List.cons_eq_cons.mpr ⟨by omega, ?_⟩
    apply List.map_congr_left
    intro i _
    simp only [Function.comp_apply]
    omega

theorem registerAll_nil_fst (names : List String) (h : names.Nodup) :
    (registerAll [] names).map Prod.fst = names := by
  rw [registerAll_fresh names [] h (fun n _ => rfl)]
  simpa using idxFrom_fst names 0

theorem registerAll_nil_snd (names : List String) (h : names.Nodup) :
    (registerAll [] names).map Prod.snd = List.range names.length := by
  rw [registerAll_fresh names [] h (fun n _ => rfl)]
  simpa using idxFrom_snd names 0

theorem generateBindingIndexMap_eq (cfg : Config) (sib : SamplerInterfaceBlock)
    (m : BindingIndexMap) :
    generateBindingIndexMap cfg sib m = registerAll m (sibActiveNames cfg sib) := by
  unfold generateBindingIndexMap sibActiveNames
  by_cases h : hasShaderType sib.stageFlags cfg.shaderType <;> simp [h, registerAll]

theorem surfaceFoldStep_eq (cfg : Config) (m : BindingIndexMap)
    (e : SamplerBlockEntry) :
    surfaceFoldStep cfg m e = registerAll m (entryNames cfg e) := by
  unfold surfaceFoldStep entryNames
  by_cases h : e.isPerMaterialInstance
  · simp [h, registerAll]
  · simp [h]
    cases e.sib with
    | none => simp [registerAll]
    | some sib => simp [generateBindingIndexMap_eq]

theorem blocksFold_eq (cfg : Config) (bs : List SamplerBlockEntry) :
    ∀ m : BindingIndexMap,
      bs.foldl (surfaceFoldStep cfg) m = registerAll m (blocksNames cfg bs) := by
  induction bs with
  | nil => intro m; rfl
  | cons e es ih =>
    intro m
    simp only [List.foldl_cons, blocksNames, registerAll_append,
      surfaceFoldStep_eq, ih]

theorem getBindingIndexMap_eq (cfg : Config) :
    getBindingIndexMap cfg = registerAll [] (registeredNames cfg) := by
  unfold getBindingIndexMap registeredNames
  cases hd : cfg.domain <;>
    simp [blocksFold_eq, generateBindingIndexMap_eq, registerAll_append]

/-! ## Helper lemmas: MSL binding remap -/

theorem remapSampled_ok (map : BindingIndexMap) :
    ∀ rs : List Resource,
      (∀ r ∈ rs, (lookupMap map r.name).isSome = true) →
      remapSampled map rs = Except.ok (rs.map (mslSampledBinding map)) := by
  intro rs
  induction rs with
  | nil => intro _; rfl
  | cons r rs ih =>
    intro h
    have hr : (lookupMap map r.name).isSome = true := h r (List.mem_cons_self r rs)
    obtain ⟨idx, hidx⟩ := Option.isSome_iff_exists.mp hr
    have ht := ih (fun x hx => h x (List.mem_cons_of_mem r hx))
    simp [remapSampled, updateSampledBinding, hidx, ht, mslSampledBinding]

theorem remapSampled_error (map : BindingIndexMap) :
    ∀ rs : List Resource,
      ((∃ e, remapSampled map rs = Except.error e) ↔
        ∃ r ∈ rs, lookupMap map r.name = none) := by
  intro rs
  induction rs with
  | nil => simp [remapSampled]
  | cons r rs ih =>
    cases hl : lookupMap map r.name with
    | none =>
      simp only [remapSampled, updateSampledBinding, hl]
      constructor
      · intro _; exact ⟨r, List.mem_cons_self r rs, hl⟩
      · intro _; exact ⟨"unordered_map::at: key not found: " ++ r.name, rfl⟩
    | some i =>
      simp only [remapSampled, updateSampledBinding, hl]
      cases hrest : remapSampled map rs with
      | error e =>
        have : ∃ r ∈ rs, lookupMap map r.name = none := ih.mp ⟨e, hrest⟩
        obtain ⟨x, hx, hxl⟩ := this
        constructor
        · intro _; exact ⟨x, List.mem_cons_of_mem r hx, hxl⟩
        · intro _; exact ⟨e, rfl⟩
      | ok bs =>
        constructor
        · intro ⟨e, he⟩; cases he
        · intro ⟨x, hx, hxl⟩
          rcases List.mem_cons.mp hx with hx | hx
          · rw [hx] at hxl; rw [hxl] at hl; cases hl
          · obtain ⟨e, he⟩ := ih.mpr ⟨x, hx, hxl⟩
            rw [he] at hrest; cases hrest

/-! ## Concrete exemplar data (used by witnesses and counterexamples) -/

/-- A neutral world: parse and link succeed, every external transform is a
simple concrete function. -/
def trivialWorld : World where
  parseOk := true
  linkOk := true
  shaderInfoLog := ""
  lowerToIR := [3, 7]
  preprocessOk := true
  preprocessed := "expanded"
  reparseOk := true
  relinkOk := true
  spirvShaderInfoLog := ""
  lowerPreprocessedIR := [4, 2]
  optimizerRun := fun _ s => some s
  remapDCE := fun s => s
  shaderResources := fun _ => ⟨[], []⟩
  mslCompile := fun _ _ => "msl"
  glslCompile := fun _ => "glsl"
  removeWhitespace := fun s => s
  renameStructFields := fun s => s

/-- A material sib active in the fragment stage with one sampler. -/
def exMaterialSib : SamplerInterfaceBlock :=
  ⟨⟨false, true⟩, ["materialParams_tex"]⟩

/-- A baseline config: SPIR-V target language, Vulkan, mobile, fragment
stage, post-process domain (empty global enumeration). -/
def exConfig : Config where
  targetLanguage := TargetLanguage.SPIRV
  targetApi := TargetApi.VULKAN
  shaderModel := ShaderModel.MOBILE
  shaderType := ShaderStage.FRAGMENT
  domain := MaterialDomain.POST_PROCESS
  hasFramebufferFetch := false
  samplerBlocks := []
  materialSib := exMaterialSib

/-- Config used to refute C3: SIZE-level build for a DESKTOP shader model
with a METAL target API. -/
def cfgC3 : Config :=
  { exConfig with shaderModel := ShaderModel.DESKTOP, targetApi := TargetApi.METAL }

/-- C3 counterexample: (SIZE, DESKTOP, METAL) is a (level, target)
combination different from desktop-OpenGL-PERFORMANCE, so the claim requires
the merge-return pass to be included; the SIZE pass list omits it for every
DESKTOP build regardless of target API. -/
theorem c3_merge_return_counterexample :
    cfgC3.shaderModel = ShaderModel.DESKTOP ∧
    cfgC3.targetApi = TargetApi.METAL ∧
    Pass.MergeReturn ∉ createOptimizer Optimization.SIZE cfgC3 :=
  ⟨rfl, rfl, by decide⟩

/-- C3 (amended): both pass lists begin with kill-wrapping then dead-branch
elimination; merge-return is skipped by the PERFORMANCE list exactly for
DESKTOP+OpenGL, and by the SIZE list exactly for the DESKTOP shader model
(for every target API), being included in all remaining combinations. -/
theorem c3_merge_return_policy (cfg : Config) :
    (registerPerformancePasses cfg).take 2 = [Pass.WrapOpKill, Pass.DeadBranchElim] ∧
    (registerSizePasses cfg).take 2 = [Pass.WrapOpKill, Pass.DeadBranchElim] ∧
    (Pass.MergeReturn ∈ registerPerformancePasses cfg ↔
      ¬(cfg.shaderModel = ShaderModel.DESKTOP ∧ cfg.targetApi = TargetApi.OPENGL)) ∧
    (Pass.MergeReturn ∈ registerSizePasses cfg ↔
      cfg.shaderModel ≠ ShaderModel.DESKTOP) := by
  obtain ⟨tl, api, sm, sty, dom, fb, blocks, msib⟩ := cfg
  refine ⟨rfl, rfl, ?_, ?_⟩
  · cases sm <;> cases api <;> simp [registerPerformancePasses]
  · cases sm <;> simp [registerSizePasses]

/-- C3 witness: the amended policy applied at concrete points — merge-return
present in the MOBILE+VULKAN performance list, absent from the DESKTOP+METAL
size list. -/
theorem c3_merge_return_policy_witness :
    Pass.MergeReturn ∈ registerPerformancePasses exConfig ∧
    Pass.MergeReturn ∉ registerSizePasses cfgC3 :=
  ⟨(c3_merge_return_policy exConfig).2.2.1.mpr (by decide),
   fun hin => (c3_merge_return_policy cfgC3).2.2.2.mp hin rfl⟩

/-- Config with the Metal target used for C7. -/
def cfgMetalPerf : Config := { exConfig with targetApi := TargetApi.METAL }

/-- C7: at PERFORMANCE with the Metal target the relaxed-to-half conversion
plus a simplification, redundancy-elimination and DCE round are appended
after the shared performance sequence; for any other target API they are
omitted (and the relaxed-to-half pass never appears at all). -/
theorem c7_metal_relaxed_to_half (cfg : Config) :
    (cfg.targetApi = TargetApi.METAL →
      createOptimizer Optimization.PERFORMANCE cfg =
        registerPerformancePasses cfg ++
          [Pass.ConvertRelaxedToHalf, Pass.Simplification,
           Pass.RedundancyElimination, Pass.AggressiveDCE]) ∧
    (cfg.targetApi ≠ TargetApi.METAL →
      createOptimizer Optimization.PERFORMANCE cfg = registerPerformancePasses cfg ∧
      Pass.ConvertRelaxedToHalf ∉ createOptimizer Optimization.PERFORMANCE cfg) := by
  constructor
  · intro h; simp [createOptimizer, h]
  · intro h
    have he : createOptimizer Optimization.PERFORMANCE cfg =
        registerPerformancePasses cfg := by
      simp [createOptimizer, h]
    refine ⟨he, ?_⟩
    rw [he]
    obtain ⟨tl, api, sm, sty, dom, fb, blocks, msib⟩ := cfg
    cases sm <;> cases api <;> simp [registerPerformancePasses]

/-- C7 witness: the two cases at concrete configs (METAL vs VULKAN). -/
theorem c7_metal_relaxed_to_half_witness :
    createOptimizer Optimization.PERFORMANCE cfgMetalPerf =
      registerPerformancePasses cfgMetalPerf ++
        [Pass.ConvertRelaxedToHalf, Pass.Simplification,
         Pass.RedundancyElimination, Pass.AggressiveDCE] ∧
    createOptimizer Optimization.PERFORMANCE exConfig =
      registerPerformancePasses exConfig :=
  ⟨(c7_metal_relaxed_to_half cfgMetalPerf).1 rfl,
   ((c7_metal_relaxed_to_half exConfig).2 (by decide)).1⟩

/-- C8: the SIZE pass list never includes the dead-struct-member elimination
transform, for any target configuration. -/
theorem c8_size_excludes_dead_members (cfg : Config) :
    Pass.EliminateDeadMembers ∉ registerSizePasses cfg ∧
    Pass.EliminateDeadMembers ∉ createOptimizer Optimization.SIZE cfg := by
  have h : Pass.EliminateDeadMembers ∉ registerSizePasses cfg := by
    obtain ⟨tl, api, sm, sty, dom, fb, blocks, msib⟩ := cfg
    cases sm <;> simp [registerSizePasses]
  refine ⟨h, ?_⟩
  simpa [createOptimizer] using h

/-- C8 witness: the exclusion at a concrete configuration. -/
theorem c8_size_excludes_dead_members_witness :
    Pass.EliminateDeadMembers ∉ registerSizePasses exConfig :=
  (c8_size_excludes_dead_members exConfig).1

/-- C5: when the enumeration registers pairwise distinct sampler names, the
binding index map assigns them, in registration order, exactly the dense
indices 0..k-1 (no gaps, no duplicates). -/
theorem c5_binding_density (cfg : Config)
    (h : (registeredNames cfg).Nodup) :
    (getBindingIndexMap cfg).map Prod.fst = registeredNames cfg ∧
    (getBindingIndexMap cfg).map Prod.snd =
      List.range (registeredNames cfg).length := by
  rw [getBindingIndexMap_eq]
  exact ⟨registerAll_nil_fst _ h, registerAll_nil_snd _ h⟩

/-- SURFACE config used by the C5 witness: a global enumeration with an
active block, the skipped per-material-instance block, a null sib and a
block inactive for the fragment stage, then the material sib. -/
def cfgC5 : Config where
  targetLanguage := TargetLanguage.SPIRV
  targetApi := TargetApi.METAL
  shaderModel := ShaderModel.MOBILE
  shaderType := ShaderStage.FRAGMENT
  domain := MaterialDomain.SURFACE
  hasFramebufferFetch := false
  samplerBlocks :=
    [⟨false, some ⟨⟨true, true⟩, ["light_shadowMap", "light_ssao"]⟩⟩,
     ⟨true, some ⟨⟨false, true⟩, ["perMaterial_skipped"]⟩⟩,
     ⟨false, none⟩,
     ⟨false, some ⟨⟨true, false⟩, ["vertexOnly_inactive"]⟩⟩]
  materialSib := exMaterialSib

/-- C5 witness: the dense map on the concrete SURFACE enumeration. -/
theorem c5_binding_density_witness :
    (getBindingIndexMap cfgC5).map Prod.fst =
      ["light_shadowMap", "light_ssao", "materialParams_tex"] ∧
    (getBindingIndexMap cfgC5).map Prod.snd = [0, 1, 2] :=
  c5_binding_density cfgC5 (by decide)

/-- C6: the remap of the compiled module's resources fails exactly when some
sampled-texture resource's name is absent from the binding index map; when
every name is present, each sampled resource receives the mapped index in
all three resource-class slots and each plain uniform buffer keeps its
original binding in all three slots (identity, never looked up). -/
theorem c6_sampled_lookup_uniform_identity (map : BindingIndexMap)
    (res : ShaderResources) :
    ((∃ e, remapBindings map res = Except.error e) ↔
      ∃ r ∈ res.sampled_images, lookupMap map r.name = none) ∧
    ((∀ r ∈ res.sampled_images, (lookupMap map r.name).isSome = true) →
      remapBindings map res =
        Except.ok (res.sampled_images.map (mslSampledBinding map) ++
          res.uniform_buffers.map
            (fun r => ⟨r.set, r.binding, r.binding, r.binding, r.binding⟩))) := by
  constructor
  · unfold remapBindings
    cases hrest : remapSampled map res.sampled_images with
    | error e =>
      have hmem := (remapSampled_error map res.sampled_images).mp ⟨e, hrest⟩
      exact ⟨fun _ => hmem, fun _ => ⟨e, rfl⟩⟩
    | ok bs =>
      constructor
      · intro ⟨e, he⟩; cases he
      · intro hx
        obtain ⟨e, he⟩ := (remapSampled_error map res.sampled_images).mpr hx
        rw [he] at hrest; cases hrest
  · intro h
    unfold remapBindings
    rw [remapSampled_ok map res.sampled_images h]
    rfl

/-- C6 witness: a registered sampler is remapped to its dense index in all
three slots; the uniform buffer passes through unchanged. -/
theorem c6_sampled_lookup_uniform_identity_witness :
    remapBindings [("uSampler", 0)]
        ⟨[⟨0, 3, "uSampler"⟩], [⟨1, 2, "objectUniforms"⟩]⟩ =
      Except.ok [⟨0, 3, 0, 0, 0⟩, ⟨1, 2, 2, 2, 2⟩] :=
  (c6_sampled_lookup_uniform_identity [("uSampler", 0)]
    ⟨[⟨0, 3, "uSampler"⟩], [⟨1, 2, "objectUniforms"⟩]⟩).2 (by decide)

/-- World used to refute C4: the pass sequence fails, and the DCE remap has
an observable effect (it prepends a word). -/
def wRunFail : World :=
  { trivialWorld with
    optimizerRun := fun _ _ => none
    remapDCE := fun s => 0 :: s }

/-- World for the C4 witness success case. -/
def wRunOk : World :=
  { trivialWorld with
    optimizerRun := fun _ s => some (s ++ [7])
    remapDCE := fun s => 0 :: s }

/-- C4 counterexample: on a pass-sequence failure the function logs and
returns the module unchanged; the dead-code sweep (observable here) is NOT
applied, contradicting "performed whether it completes or fails". -/
theorem c4_counterexample :
    optimizeSpirv wRunFail [] [1, 2] = ([1, 2], ["SPIR-V optimizer pass failed"]) ∧
    wRunFail.remapDCE [1, 2] = [0, 1, 2] ∧
    (optimizeSpirv wRunFail [] [1, 2]).1 ≠ wRunFail.remapDCE [1, 2] :=
  ⟨rfl, rfl, by decide⟩

/-- C4 (amended): a pass-sequence failure is logged and the module is
returned in its last-good state (the pipeline continues with it), but the
dead-code sweep over top-level IR objects runs only when the pass sequence
succeeds; on failure the function returns early without the sweep. -/
theorem c4_optimizer_failure_no_sweep (w : World) (passes : List Pass)
    (spirv : SpirvBlob) :
    (w.optimizerRun passes spirv = none →
      optimizeSpirv w passes spirv = (spirv, ["SPIR-V optimizer pass failed"])) ∧
    (∀ optimized, w.optimizerRun passes spirv = some optimized →
      optimizeSpirv w passes spirv = (w.remapDCE optimized, [])) := by
  constructor
  · intro h; simp [optimizeSpirv, h]
  · intro o h; simp [optimizeSpirv, h]

/-- C4 witness: both branches at concrete worlds. -/
theorem c4_optimizer_failure_no_sweep_witness :
    optimizeSpirv wRunFail [] [1, 2] = ([1, 2], ["SPIR-V optimizer pass failed"]) ∧
    optimizeSpirv wRunOk [] [1, 2] = ([0, 1, 2, 7], []) :=
  ⟨(c4_optimizer_failure_no_sweep wRunFail [] [1, 2]).1 rfl,
   (c4_optimizer_failure_no_sweep wRunOk [] [1, 2]).2 ([1, 2] ++ [7]) rfl⟩

/-- World whose front end rejects the source. -/
def wParseFail : World :=
  { trivialWorld with parseOk := false, shaderInfoLog := "ERROR: syntax" }

/-- Config whose target dialect equals the source dialect. -/
def cfgGlslTarget : Config := { exConfig with targetLanguage := TargetLanguage.GLSL }

/-- Output slots with both the native-source and the binary-IR slot
requested. -/
def stGlslSpirv : Outputs := ⟨some "", some [], none⟩

/-- Post-processor at optimization level NONE with no debug flags. -/
def ppNone : PostProcessor := ⟨Optimization.NONE, false, false⟩

/-- C1 counterexample: a configuration whose target dialect equals the
source dialect but with a binary output requested is, per the claim, an
"other configuration" that must be parsed and linked before any output; the
code still takes the fast path: with a front end that would reject the
source, process succeeds and copies the input to the native-source slot,
leaving the requested binary slot untouched. -/
theorem c1_counterexample :
    cfgGlslTarget.targetLanguage = TargetLanguage.GLSL ∧
    stGlslSpirv.spirv = some [] ∧
    wParseFail.parseOk = false ∧
    process wParseFail ppNone cfgGlslTarget stGlslSpirv "void main()" =
      Except.ok ⟨true, ⟨some "void main()", some [], none⟩, []⟩ :=
  ⟨rfl, rfl, rfl, rfl⟩

/-- C1 (amended): the fast path is taken exactly when the target dialect
equals the source dialect, irrespective of whether a binary output was
requested: it returns ok with the native-source slot set to the input text
unchanged.  In every configuration whose target dialect differs, the source
is parsed and linked first, and a parse or link failure aborts with no
output slot written. -/
theorem c1_fast_path (w : World) (pp : PostProcessor) (cfg : Config)
    (st : Outputs) (input : String) :
    (cfg.targetLanguage = TargetLanguage.GLSL →
      process w pp cfg st input =
        Except.ok ⟨true, { st with glsl := st.glsl.map (fun _ => input) },
          if pp.printShaders then [(st.glsl.map (fun _ => input)).getD ""]
          else []⟩) ∧
    (cfg.targetLanguage ≠ TargetLanguage.GLSL → w.parseOk = false →
      process w pp cfg st input = Except.ok ⟨false, st, [w.shaderInfoLog]⟩) ∧
    (cfg.targetLanguage ≠ TargetLanguage.GLSL → w.parseOk = true →
        w.linkOk = false →
      process w pp cfg st input = Except.ok ⟨false, st, [w.shaderInfoLog]⟩) := by
  refine ⟨?_, ?_, ?_⟩
  · intro h; simp [process, h]
  · intro h hp; simp [process, h, hp]
  · intro h hp hk; simp [process, h, hp, hk]

/-- C1 witness: the fast path on a GLSL-target config and the parse-failure
abort on a SPIRV-target config. -/
theorem c1_fast_path_witness :
    process trivialWorld ppNone cfgGlslTarget ⟨some "", none, none⟩ "src" =
      Except.ok ⟨true, ⟨some "src", none, none⟩, []⟩ ∧
    process wParseFail ppNone exConfig ⟨some "", none, none⟩ "src" =
      Except.ok ⟨false, ⟨some "", none, none⟩, ["ERROR: syntax"]⟩ :=
  ⟨(c1_fast_path trivialWorld ppNone cfgGlslTarget ⟨some "", none, none⟩ "src").1 rfl,
   (c1_fast_path wParseFail ppNone exConfig ⟨some "", none, none⟩ "src").2.1
     (by decide) rfl⟩

/-- C2: at optimization level NONE with no binary-IR slot requested (parse
and link succeeding, off the fast path), process logs the configuration
error but still returns ok; the NONE branch populates no slot — the final
result only re-minifies whatever the native-source slot already held, and
the binary and cross-compiled slots are exactly as the caller passed them. -/
theorem c2_none_logs_but_succeeds (w : World) (pp : PostProcessor)
    (cfg : Config) (st : Outputs) (input : String)
    (hl : cfg.targetLanguage = TargetLanguage.SPIRV)
    (hp : w.parseOk = true) (hk : w.linkOk = true)
    (ho : pp.optimization = Optimization.NONE)
    (hs : st.spirv = none) :
    process w pp cfg st input =
      Except.ok ⟨true, { st with glsl := st.glsl.map w.removeWhitespace },
        "GLSL post-processor invoked with optimization level NONE" ::
          (match st.glsl with
           | some g => if pp.printShaders then [w.removeWhitespace g] else []
           | none => [])⟩ := by
  obtain ⟨g, s, m⟩ := st
  obtain rfl : s = none := hs
  cases g <;> simp [process, hl, hp, hk, ho]

/-- C2 witness: concrete NONE-level request without a binary slot. -/
theorem c2_none_logs_but_succeeds_witness :
    process trivialWorld ppNone exConfig ⟨some "existing", none, none⟩ "src" =
      Except.ok ⟨true, ⟨some "existing", none, none⟩,
        ["GLSL post-processor invoked with optimization level NONE"]⟩ :=
  c2_none_logs_but_succeeds trivialWorld ppNone exConfig
    ⟨some "existing", none, none⟩ "src" rfl rfl rfl rfl rfl

/-- C9: off the fast path, a parse failure (or a link failure after a
successful parse) returns ok=false with every output slot exactly as the
caller passed it, and the front-end diagnostic is surfaced as the only log
line; if the front end produced a non-empty diagnostic, the surfaced log is
non-empty. -/
theorem c9_parse_or_link_failure (w : World) (pp : PostProcessor)
    (cfg : Config) (st : Outputs) (input : String)
    (hl : cfg.targetLanguage = TargetLanguage.SPIRV)
    (hf : w.parseOk = false ∨ (w.parseOk = true ∧ w.linkOk = false))
    (hd : w.shaderInfoLog ≠ "") :
    process w pp cfg st input = Except.ok ⟨false, st, [w.shaderInfoLog]⟩ ∧
    [w.shaderInfoLog] ≠ [] ∧
    ∀ m ∈ [w.shaderInfoLog], m ≠ "" := by
  refine ⟨?_, by simp, ?_⟩
  · rcases hf with hf | ⟨hp, hk⟩
    · simp [process, hl, hf]
    · simp [process, hl, hp, hk]
  · intro m hm
    rw [List.mem_singleton] at hm
    rw [hm]; exact hd

/-- C9 witness: a rejected source at a concrete request. -/
theorem c9_parse_or_link_failure_witness :
    process wParseFail ppNone exConfig ⟨none, some [], none⟩ "bad source" =
      Except.ok ⟨false, ⟨none, some [], none⟩, ["ERROR: syntax"]⟩ :=
  (c9_parse_or_link_failure wParseFail ppNone exConfig ⟨none, some [], none⟩
    "bad source" rfl (Or.inl rfl) (by decide)).1

/-- C10: on the PREPROCESSOR path (after the original source parsed and
linked, with no cross-compiled slot requested), process always returns
ok=true: a preprocess failure and a re-parse/re-link failure are only
logged; the native-source slot receives the preprocessed text (then
minified and field-renamed by the finalizer), and the binary-IR slot is
lowered from the re-parsed program only when re-parse and re-link succeed,
being left exactly as the caller passed it otherwise. -/
theorem c10_preprocess_only_logs (w : World) (pp : PostProcessor)
    (cfg : Config) (st : Outputs) (input : String)
    (hl : cfg.targetLanguage = TargetLanguage.SPIRV)
    (hp : w.parseOk = true) (hk : w.linkOk = true)
    (ho : pp.optimization = Optimization.PREPROCESSOR)
    (hm : st.msl = none) :
    process w pp cfg st input =
      Except.ok ⟨true,
        ⟨st.glsl.map (fun _ =>
            w.renameStructFields (w.removeWhitespace w.preprocessed)),
         (if w.reparseOk && w.relinkOk then
            st.spirv.map (fun _ => w.lowerPreprocessedIR)
          else st.spirv),
         none⟩,
        ((if w.preprocessOk then [] else [w.shaderInfoLog]) ++
         (match st.spirv with
          | some _ =>
            if w.reparseOk && w.relinkOk then [] else [w.spirvShaderInfoLog]
          | none => []) ++
         (match st.glsl with
          | some _ =>
            if pp.printShaders then
              [w.renameStructFields (w.removeWhitespace w.preprocessed)]
            else []
          | none => []))⟩ := by
  obtain ⟨g, s, m⟩ := st
  obtain rfl : m = none := hm
  cases s <;> cases g <;> cases hrr : (w.reparseOk && w.relinkOk) <;>
    simp [process, preprocessOptimization, hl, hp, hk, ho, hrr]

/-- World whose preprocessor and re-parse both fail. -/
def wPreFail : World :=
  { trivialWorld with
    preprocessOk := false
    shaderInfoLog := "preprocessor diagnostic"
    reparseOk := false
    spirvShaderInfoLog := "reparse diagnostic" }

/-- C10 witness: both failures logged, result still ok, native-source slot
holding the preprocessed text, binary slot untouched. -/
theorem c10_preprocess_only_logs_witness :
    process wPreFail ⟨Optimization.PREPROCESSOR, false, false⟩ exConfig
        ⟨some "", some [], none⟩ "src" =
      Except.ok ⟨true, ⟨some "expanded", some [], none⟩,
        ["preprocessor diagnostic", "reparse diagnostic"]⟩ :=
  c10_preprocess_only_logs wPreFail ⟨Optimization.PREPROCESSOR, false, false⟩
    exConfig ⟨some "", some [], none⟩ "src" rfl rfl rfl rfl rfl

end Filamat
